import Mathlib

/-!
# dbaaas-monitoring: endpoint resolution, bootstrap and query facade

A shallow embedding of the Go packages `utils` (discovery.go), `config`
(config.go) and `services` (prometheus.go).

Modelling conventions.

* The process environment, the filesystem marker and the subordinate
  processes are an explicit `World` value that the Go code only reads.
  `World.exec` gives, for a timeout and an argument vector, the outcome of
  `exec.CommandContext(ctx, argv...).Output()`: the bytes written to stdout
  and the error (non-zero exit, timeout, binary not found) if any.
* Every observable action (a subordinate process started, a log line, a
  call on the Prometheus client) is appended to a trace, so that "invoked
  once" and "never consulted" are statements about the trace.
* A Go `error` is the string returned by its `Error()` method; a Go
  `(T, error)` result is `Except String T`, a bare `error` is
  `Option String`.
* Go strings are modelled as Lean strings (sequences of code points).
* Both kubectl commands run under one 10 second context and the probe under
  a 5 second one; a timeout is one of the errors `World.exec` may report.
* `NewPrometheusService` builds the client with a library outside the
  repository and is not embedded; the client is a parameter.
-/

namespace Monitoring

/-! ## Effects -/

/-- Observable actions of the program, in the order they happen. -/
inductive Event where
  /-- A line written through the `log` package. -/
  | log (msg : String)
  /-- A subordinate process run to completion under a timeout (seconds). -/
  | exec (timeoutSec : Nat) (argv : List String)
  /-- An instant query sent to the Prometheus client. -/
  | apiQuery (expr : String) (ts : Int)
  /-- A range query sent to the Prometheus client. -/
  | apiQueryRange (expr : String) (start stop step : Int)
  deriving DecidableEq, Repr

/-- A computation that returns a value and the actions it performed. -/
def Eff (α : Type) : Type := α × List Event

namespace Eff

/-- The returned value. -/
def val {α : Type} (m : Eff α) : α := m.1

/-- The actions performed, oldest first. -/
def trace {α : Type} (m : Eff α) : List Event := m.2

/-- Sequencing: run `m`, then `f` on its value; traces are concatenated. -/
def andThen {α β : Type} (m : Eff α) (f : α → Eff β) : Eff β :=
  ((f m.1).1, m.2 ++ (f m.1).2)

instance : Monad Eff where
  pure a := (a, [])
  bind := andThen

/-- Perform one action. -/
def emit (e : Event) : Eff Unit := ((), [e])

end Eff

/-- The subordinate processes started, in order, with their timeouts. -/
def execs : List Event → List (Nat × List String)
  | [] => []
  | Event.exec t argv :: es => (t, argv) :: execs es
  | _ :: es => execs es

/-- The instant queries sent to the client, in order. -/
def apiQueries : List Event → List (String × Int)
  | [] => []
  | Event.apiQuery q ts :: es => (q, ts) :: apiQueries es
  | _ :: es => apiQueries es

/-- The range queries sent to the client, in order. -/
def apiRangeQueries : List Event → List (String × Int × Int × Int)
  | [] => []
  | Event.apiQueryRange q a b s :: es => (q, a, b, s) :: apiRangeQueries es
  | _ :: es => apiRangeQueries es

/-- The log lines written, in order. -/
def logs : List Event → List String
  | [] => []
  | Event.log m :: es => m :: logs es
  | _ :: es => logs es

/-! ## Go standard library -/

deriving instance DecidableEq for Except

/-- Go `unicode.IsSpace`: the code points with the White_Space property. -/
def isSpace (c : Char) : Bool :=
  let n := c.toNat
  n = 0x09 || n = 0x0A || n = 0x0B || n = 0x0C || n = 0x0D || n = 0x20 ||
  n = 0x85 || n = 0xA0 || n = 0x1680 || (0x2000 ≤ n && n ≤ 0x200A) ||
  n = 0x2028 || n = 0x2029 || n = 0x202F || n = 0x205F || n = 0x3000

/-- Go `strings.TrimSpace`: drop leading and trailing white space. -/
def TrimSpace (s : String) : String :=
  String.mk ((s.data.dropWhile isSpace).reverse.dropWhile isSpace).reverse

/-- Result of `Cmd.Output()`: captured stdout and the error, if any. -/
structure CmdOutcome where
  out : String
  err : Option String
  deriving DecidableEq, Repr

/-- Everything outside the process that the bootstrap code reads. -/
structure World where
  /-- The environment: `none` when the variable is unset. -/
  env : String → Option String
  /-- Whether `os.Stat(path)` returns a nil error. -/
  stat : String → Bool
  /-- Outcome of running `argv` under a context with the given timeout. -/
  exec : Nat → List String → CmdOutcome

/-- Go `os.Getenv`: the value, or the empty string when unset. -/
def Getenv (w : World) (key : String) : String := (w.env key).getD ""

/-- Go `log.Println` / `log.Printf` with the message already formatted. -/
def logLine (msg : String) : Eff Unit := Eff.emit (Event.log msg)

/-- Go `exec.CommandContext(ctx, argv...).Output()` with `ctx` timing out
after `timeoutSec` seconds. -/
def Output (w : World) (timeoutSec : Nat) (argv : List String) : Eff CmdOutcome :=
  Eff.andThen (Eff.emit (Event.exec timeoutSec argv)) fun _ => pure (w.exec timeoutSec argv)

/-! ## package utils (utils/discovery.go) -/

namespace utils

/-- Go `type PrometheusEndpoint struct`. -/
structure PrometheusEndpoint where
  URL : String
  NodeIP : String
  NodePort : String
  deriving DecidableEq, Repr

/-- Go `type DiscoveryConfig struct`. -/
structure DiscoveryConfig where
  Namespace : String
  ServiceName : String
  deriving DecidableEq, Repr

/-- Path whose presence signals in-cluster execution. -/
def tokenPath : String := "/var/run/secrets/kubernetes.io/serviceaccount/token"

/-- Go `getEnvOrDefault`. -/
def getEnvOrDefault (w : World) (key defaultValue : String) : String :=
  let value := Getenv w key
  if value ≠ "" then value else defaultValue

/-- Argument vector of the first kubectl command (the service's nodePort). -/
def nodePortArgv (config : DiscoveryConfig) : List String :=
  ["kubectl", "get", "svc", "-n", config.Namespace, config.ServiceName,
   "-o", "jsonpath=\x7b.spec.ports[0].nodePort\x7d"]

/-- Argument vector of the second kubectl command (the first node's
internal IP). -/
def nodeIPArgv : List String :=
  ["kubectl", "get", "nodes",
   "-o", "jsonpath=\x7b.items[0].status.addresses[?(@.type==\"InternalIP\")].address\x7d"]

/-- Go `getInClusterEndpoint`. -/
def getInClusterEndpoint (w : World) : Eff (Except String PrometheusEndpoint) := do
  let namespace_ := getEnvOrDefault w "PROMETHEUS_NAMESPACE" "monitoring"
  let service := getEnvOrDefault w "PROMETHEUS_SERVICE" "kube-prom-stack-kube-prome-prometheus"
  let url := "http://" ++ service ++ "." ++ namespace_ ++ ".svc.cluster.local:9090"
  logLine ("Using in-cluster Prometheus endpoint: " ++ url)
  pure (.ok { URL := url, NodeIP := "", NodePort := "" })

/-- Go `discoverFromKubectl`: both commands share one 10 second context. -/
def discoverFromKubectl (w : World) (config : DiscoveryConfig) :
    Eff (Except String PrometheusEndpoint) := do
  let nodePortOutput ← Output w 10 (nodePortArgv config)
  match nodePortOutput.err with
  | some err => pure (.error ("failed to get NodePort: " ++ err))
  | none =>
    let nodePort := TrimSpace nodePortOutput.out
    if nodePort = "" then
      pure (.error "NodePort not found")
    else do
      let nodeIPOutput ← Output w 10 nodeIPArgv
      match nodeIPOutput.err with
      | some err => pure (.error ("failed to get Node IP: " ++ err))
      | none =>
        let nodeIP := TrimSpace nodeIPOutput.out
        if nodeIP = "" then
          pure (.error "Node IP not found")
        else do
          let url := "http://" ++ nodeIP ++ ":" ++ nodePort
          logLine "✓ Discovered Prometheus endpoint:"
          logLine ("  - Namespace: " ++ config.Namespace)
          logLine ("  - Service: " ++ config.ServiceName)
          logLine ("  - Node IP: " ++ nodeIP)
          logLine ("  - NodePort: " ++ nodePort)
          logLine ("  - Full URL: " ++ url)
          pure (.ok { URL := url, NodeIP := nodeIP, NodePort := nodePort })

/-- Go `GetPrometheusEndpoint`. -/
def GetPrometheusEndpoint (w : World) : Eff (Except String PrometheusEndpoint) := do
  if w.stat tokenPath then
    logLine "Running inside Kubernetes cluster"
    getInClusterEndpoint w
  else do
    logLine "Running outside Kubernetes cluster"
    let url := Getenv w "PROMETHEUS_URL"
    if url ≠ "" then
      logLine ("Using Prometheus URL from environment: " ++ url)
      pure (.ok { URL := url, NodeIP := "", NodePort := "" })
    else
      let config : DiscoveryConfig :=
        { Namespace := getEnvOrDefault w "PROMETHEUS_NAMESPACE" "monitoring"
          ServiceName := getEnvOrDefault w "PROMETHEUS_SERVICE" "kube-prom-stack-kube-prome-prometheus" }
      discoverFromKubectl w config

/-- Argument vector of the health probe for a backend URL. -/
def curlArgv (url : String) : List String :=
  ["curl", "-s", "-o", "/dev/null", "-w", "%\x7bhttp_code\x7d", url ++ "/api/v1/query?query=up"]

/-- Go `CheckPrometheusHealth`: `none` is the nil error. -/
def CheckPrometheusHealth (w : World) (url : String) : Eff (Option String) := do
  let testURL := url ++ "/api/v1/query?query=up"
  let output ← Output w 5 ["curl", "-s", "-o", "/dev/null", "-w", "%\x7bhttp_code\x7d", testURL]
  match output.err with
  | some err => pure (some ("failed to connect to Prometheus: " ++ err))
  | none =>
    let statusCode := TrimSpace output.out
    if statusCode ≠ "200" then
      pure (some ("Prometheus returned status code: " ++ statusCode))
    else do
      logLine "✓ Prometheus health check passed"
      pure none

end utils

/-! ## package config (config/config.go) -/

namespace config

/-- Go `type Config struct`. -/
structure Config where
  PrometheusURL : String
  Port : String
  Environment : String
  NodeIP : String
  NodePort : String
  deriving DecidableEq, Repr

/-- Go `getEnv`. -/
def getEnv (w : World) (key defaultValue : String) : String :=
  let value := Getenv w key
  if value ≠ "" then value else defaultValue

/-- Go `Load`. -/
def Load (w : World) : Eff Config := do
  let cfg : Config :=
    { Port := getEnv w "PORT" "8080"
      Environment := getEnv w "ENVIRONMENT" "development"
      PrometheusURL := "", NodeIP := "", NodePort := "" }
  logLine "🔍 Discovering Prometheus endpoint..."
  let r ← utils.GetPrometheusEndpoint w
  let cfg ← match r with
    | .error err => do
      logLine ("⚠️  Warning: Could not auto-discover Prometheus endpoint: " ++ err)
      logLine "Falling back to default/environment variable"
      pure { cfg with PrometheusURL := getEnv w "PROMETHEUS_URL" "http://localhost:9090" }
    | .ok endpoint =>
      pure { cfg with PrometheusURL := endpoint.URL
                      NodeIP := endpoint.NodeIP
                      NodePort := endpoint.NodePort }
  logLine "🔗 Validating Prometheus connection..."
  let herr ← utils.CheckPrometheusHealth w cfg.PrometheusURL
  match herr with
  | some err => do
    logLine ("⚠️  Warning: Prometheus health check failed: " ++ err)
    logLine "API will still start, but metrics may not be available"
  | none => pure ()
  logLine "✅ Configuration loaded successfully:"
  logLine ("  - Prometheus URL: " ++ cfg.PrometheusURL)
  if cfg.NodeIP ≠ "" then
    logLine ("  - Node IP: " ++ cfg.NodeIP)
    logLine ("  - Node Port: " ++ cfg.NodePort)
  logLine ("  - API Port: " ++ cfg.Port)
  logLine ("  - Environment: " ++ cfg.Environment)
  pure cfg

end config

/-! ## package services (services/prometheus.go) -/

namespace services

/-- What a call on the Prometheus client (`v1.API`) returns: the value, the
warnings and the error, if any. -/
structure Response (V : Type) where
  result : V
  warnings : List String
  err : Option String

/-- The part of the client interface `v1.API` the service uses. `Ctx` is the
request context, `V` the type of query values (`model.Value`), instants
and durations are integers. -/
structure API (Ctx V : Type) where
  /-- The call `Query(ctx, query, ts)`. -/
  Query : Ctx → String → Int → Response V
  /-- The call `QueryRange(ctx, query, v1.Range{Start, End, Step})`. -/
  QueryRange : Ctx → String → Int → Int → Int → Response V

/-- Go `type PrometheusService struct`. -/
structure PrometheusService (Ctx V : Type) where
  client : API Ctx V

/-- Go formatting of a `[]string` under the verb `%v`. -/
def fmtStrings (ws : List String) : String := "[" ++ " ".intercalate ws ++ "]"

variable {Ctx V : Type}

/-- Go `(*PrometheusService).Query`; `now` is the value of `time.Now()`. -/
def PrometheusService.Query (p : PrometheusService Ctx V) (now : Int) (ctx : Ctx)
    (query : String) : Eff (Except String V) := do
  Eff.emit (Event.apiQuery query now)
  let r := p.client.Query ctx query now
  match r.err with
  | some err => pure (.error ("query error: " ++ err))
  | none =>
    if r.warnings.length > 0 then
      logLine ("Query warnings: " ++ fmtStrings r.warnings)
    pure (.ok r.result)

/-- Go `(*PrometheusService).QueryRange`. -/
def PrometheusService.QueryRange (p : PrometheusService Ctx V) (ctx : Ctx)
    (query : String) (start stop step : Int) : Eff (Except String V) := do
  Eff.emit (Event.apiQueryRange query start stop step)
  let r := p.client.QueryRange ctx query start stop step
  match r.err with
  | some err => pure (.error ("query range error: " ++ err))
  | none =>
    if r.warnings.length > 0 then
      logLine ("Query range warnings: " ++ fmtStrings r.warnings)
    pure (.ok r.result)

/-- Go `(*PrometheusService).GetCPUMetrics`. -/
def PrometheusService.GetCPUMetrics (p : PrometheusService Ctx V) (now : Int) (ctx : Ctx) :
    Eff (Except String V) :=
  let query := "100 - (avg by(instance) (irate(node_cpu_seconds_total\x7bmode=\"idle\"\x7d[5m])) * 100)"
  p.Query now ctx query

/-- Go `(*PrometheusService).GetMemoryMetrics`. -/
def PrometheusService.GetMemoryMetrics (p : PrometheusService Ctx V) (now : Int) (ctx : Ctx) :
    Eff (Except String V) :=
  let query := "(1 - (node_memory_MemAvailable_bytes / node_memory_MemTotal_bytes)) * 100"
  p.Query now ctx query

/-- Go `(*PrometheusService).GetDiskMetrics`. -/
def PrometheusService.GetDiskMetrics (p : PrometheusService Ctx V) (now : Int) (ctx : Ctx) :
    Eff (Except String V) :=
  let query := "(1 - (node_filesystem_avail_bytes\x7bfstype!~\"tmpfs|fuse.lxcfs|squashfs|vfat\"\x7d / node_filesystem_size_bytes\x7bfstype!~\"tmpfs|fuse.lxcfs|squashfs|vfat\"\x7d)) * 100"
  p.Query now ctx query

/-- Go `(*PrometheusService).GetPodMetrics`. -/
def PrometheusService.GetPodMetrics (p : PrometheusService Ctx V) (now : Int) (ctx : Ctx) :
    Eff (Except String V) :=
  let query := "kube_pod_info"
  p.Query now ctx query

/-- Go `(*PrometheusService).GetNodeMetrics`. -/
def PrometheusService.GetNodeMetrics (p : PrometheusService Ctx V) (now : Int) (ctx : Ctx) :
    Eff (Except String V) :=
  let query := "kube_node_info"
  p.Query now ctx query

/-- Go `(*PrometheusService).GetContainerCPU`. -/
def PrometheusService.GetContainerCPU (p : PrometheusService Ctx V) (now : Int) (ctx : Ctx) :
    Eff (Except String V) :=
  let query := "sum(rate(container_cpu_usage_seconds_total\x7bcontainer!=\"\"\x7d[5m])) by (pod, namespace)"
  p.Query now ctx query

/-- Go `(*PrometheusService).GetContainerMemory`. -/
def PrometheusService.GetContainerMemory (p : PrometheusService Ctx V) (now : Int) (ctx : Ctx) :
    Eff (Except String V) :=
  let query := "sum(container_memory_working_set_bytes\x7bcontainer!=\"\"\x7d) by (pod, namespace)"
  p.Query now ctx query

/-- Go `(*PrometheusService).GetAllTargets`. -/
def PrometheusService.GetAllTargets (p : PrometheusService Ctx V) (now : Int) (ctx : Ctx) :
    Eff (Except String V) :=
  let query := "up"
  p.Query now ctx query

end services

/-! ## Reference definitions used in the statements -/

/-- The value of an environment variable when it is set and non-empty, the
default otherwise. -/
def setNonEmptyOr (v : Option String) (dflt : String) : String :=
  match v with
  | some s => if s = "" then dflt else s
  | none => dflt

/-- The URL of a resolver result, when it is a success. -/
def urlOf (r : Except String utils.PrometheusEndpoint) : Option String :=
  match r with
  | .ok e => some e.URL
  | .error _ => none

/-- The URL, node IP and node port that `Load` settles on, as a function of
the resolver's result. -/
def settled (w : World) (r : Except String utils.PrometheusEndpoint) : String × String × String :=
  match r with
  | .ok e => (e.URL, e.NodeIP, e.NodePort)
  | .error _ => (setNonEmptyOr (w.env "PROMETHEUS_URL") "http://localhost:9090", "", "")

/-! ## Worlds used as concrete inputs -/

/-- Outside the cluster, nothing set, kubectl answers with a port and an
address surrounded by white space, the probe answers 200. -/
def worldKubectlOk : World where
  env := fun _ => none
  stat := fun _ => false
  exec := fun _ argv =>
    if argv.head? = some "curl" then ⟨"200", none⟩
    else if argv.get? 2 = some "svc" then ⟨" 30090\n", none⟩
    else ⟨"10.0.0.5\n", none⟩

/-- Outside the cluster, nothing set, every subordinate process fails. -/
def worldAllFail : World where
  env := fun _ => none
  stat := fun _ => false
  exec := fun _ _ => ⟨"", some "exit status 1"⟩

/-- Inside the cluster with the override variable set as well. -/
def worldInClusterOverride : World where
  env := fun k => if k = "PROMETHEUS_URL" then some "http://prom.example:9090" else none
  stat := fun p => p = utils.tokenPath
  exec := fun _ _ => ⟨"", some "exit status 1"⟩

/-- Outside the cluster with the override variable set to a string that is
not a URL. -/
def worldOverride : World where
  env := fun k => if k = "PROMETHEUS_URL" then some " not a url " else none
  stat := fun _ => false
  exec := fun _ _ => ⟨"", some "exit status 1"⟩

/-- The world `worldKubectlOk` with a health probe that times out. -/
def worldProbeDown : World :=
  { worldKubectlOk with
    exec := fun t argv =>
      if argv.head? = some "curl" then ⟨"000", some "signal: killed"⟩
      else worldKubectlOk.exec t argv }

/-- A client whose instant queries return the value 7 with one warning and
whose range queries fail. -/
def clientWarns : services.PrometheusService Unit Nat where
  client :=
    { Query := fun _ _ _ => ⟨7, ["partial response"], none⟩
      QueryRange := fun _ _ _ _ _ => ⟨0, [], some "bad_data: invalid step"⟩ }

/-! ## Reference definition of bootstrap -/

/-- The configuration the specification describes: port and environment
name from their variables or defaults; the resolver's endpoint when it
succeeds; the override-or-default URL with empty node fields when it fails. -/
def LoadRef (w : World) : config.Config :=
  match (utils.GetPrometheusEndpoint w).val with
  | .ok e =>
    { Port := setNonEmptyOr (w.env "PORT") "8080"
      Environment := setNonEmptyOr (w.env "ENVIRONMENT") "development"
      PrometheusURL := e.URL, NodeIP := e.NodeIP, NodePort := e.NodePort }
  | .error _ =>
    { Port := setNonEmptyOr (w.env "PORT") "8080"
      Environment := setNonEmptyOr (w.env "ENVIRONMENT") "development"
      PrometheusURL := setNonEmptyOr (w.env "PROMETHEUS_URL") "http://localhost:9090"
      NodeIP := "", NodePort := "" }

open utils config services

/-! ## Basic facts about effects and strings -/

@[simp] theorem Eff.val_pure {α : Type} (a : α) : (pure a : Eff α).val = a := rfl

@[simp] theorem Eff.trace_pure {α : Type} (a : α) : (pure a : Eff α).trace = [] := rfl

@[simp] theorem Eff.val_bind {α β : Type} (m : Eff α) (f : α → Eff β) :
    (m >>= f).val = (f m.val).val := rfl

@[simp] theorem Eff.trace_bind {α β : Type} (m : Eff α) (f : α → Eff β) :
    (m >>= f).trace = m.trace ++ (f m.val).trace := rfl

@[simp] theorem Eff.val_logLine (msg : String) : (logLine msg).val = () := rfl

@[simp] theorem Eff.trace_logLine (msg : String) : (logLine msg).trace = [Event.log msg] := rfl

@[simp] theorem Eff.val_Output (w : World) (t : Nat) (argv : List String) :
    (Output w t argv).val = w.exec t argv := rfl

@[simp] theorem Eff.trace_Output (w : World) (t : Nat) (argv : List String) :
    (Output w t argv).trace = [Event.exec t argv] := rfl

theorem execs_append (a b : List Event) : execs (a ++ b) = execs a ++ execs b := by
  induction a with
  | nil => rfl
  | cons e es ih => cases e <;> simp [execs, ih]

theorem Getenv_eq_setNonEmptyOr (w : World) (key dflt : String) :
    (if Getenv w key ≠ "" then Getenv w key else dflt) = setNonEmptyOr (w.env key) dflt := by
  unfold Getenv setNonEmptyOr
  cases h : w.env key with
  | none => simp
  | some s => by_cases hs : s = "" <;> simp [hs]

theorem append_ne_empty_left (a b : String) (h : a ≠ "") : a ++ b ≠ "" := by
  intro hab
  apply h
  have h1 : (a ++ b).data = [] := by rw [hab]
  rw [String.data_append] at h1
  exact String.ext (List.append_eq_nil.mp h1).1

theorem http_append_ne_empty (b : String) : "http://" ++ b ≠ "" :=
  append_ne_empty_left _ _ (by decide)

theorem setNonEmptyOr_ne_empty (v : Option String) (dflt : String) (h : dflt ≠ "") :
    setNonEmptyOr v dflt ≠ "" := by
  unfold setNonEmptyOr
  cases v with
  | none => simpa using h
  | some s => by_cases hs : s = "" <;> simp [hs, h]

/-! ## The kubectl strategy -/

theorem discoverFromKubectl_val (w : World) (config : DiscoveryConfig) :
    (discoverFromKubectl w config).val =
      match (w.exec 10 (nodePortArgv config)).err with
      | some err => .error ("failed to get NodePort: " ++ err)
      | none =>
        if TrimSpace (w.exec 10 (nodePortArgv config)).out = "" then .error "NodePort not found"
        else match (w.exec 10 nodeIPArgv).err with
          | some err => .error ("failed to get Node IP: " ++ err)
          | none =>
            if TrimSpace (w.exec 10 nodeIPArgv).out = "" then .error "Node IP not found"
            else .ok { URL := "http://" ++ TrimSpace (w.exec 10 nodeIPArgv).out ++ ":" ++
                               TrimSpace (w.exec 10 (nodePortArgv config)).out
                       NodeIP := TrimSpace (w.exec 10 nodeIPArgv).out
                       NodePort := TrimSpace (w.exec 10 (nodePortArgv config)).out } := by
  unfold discoverFromKubectl
  simp only [Eff.val_bind, Eff.val_Output]
  cases h1 : (w.exec 10 (nodePortArgv config)).err with
  | some e => simp
  | none =>
    by_cases h2 : TrimSpace (w.exec 10 (nodePortArgv config)).out = ""
    · simp [h2]
    · simp only [h2, if_false, Eff.val_bind, Eff.val_Output]
      cases h3 : (w.exec 10 nodeIPArgv).err with
      | some e => simp
      | none =>
        by_cases h4 : TrimSpace (w.exec 10 nodeIPArgv).out = ""
        · simp [h4]
        · simp [h4]

theorem discoverFromKubectl_execs (w : World) (config : DiscoveryConfig) :
    execs (discoverFromKubectl w config).trace =
      if (w.exec 10 (nodePortArgv config)).err = none ∧
          TrimSpace (w.exec 10 (nodePortArgv config)).out ≠ "" then
        [(10, nodePortArgv config), (10, nodeIPArgv)]
      else [(10, nodePortArgv config)] := by
  unfold discoverFromKubectl
  simp only [Eff.trace_bind, Eff.val_Output, Eff.trace_Output]
  cases h1 : (w.exec 10 (nodePortArgv config)).err with
  | some e => simp [execs]
  | none =>
    by_cases h2 : TrimSpace (w.exec 10 (nodePortArgv config)).out = ""
    · simp [h2, execs]
    · simp only [h2, if_false, Eff.trace_bind, Eff.val_Output, Eff.trace_Output]
      cases h3 : (w.exec 10 nodeIPArgv).err with
      | some e => simp [execs, h2]
      | none =>
        by_cases h4 : TrimSpace (w.exec 10 nodeIPArgv).out = ""
        · simp [h4, h2, execs]
        · simp [h4, h2, execs]

theorem discoverFromKubectl_ok (w : World) (config : DiscoveryConfig) (e : PrometheusEndpoint)
    (h : (discoverFromKubectl w config).val = .ok e) :
    (w.exec 10 (nodePortArgv config)).err = none ∧ (w.exec 10 nodeIPArgv).err = none ∧
    TrimSpace (w.exec 10 (nodePortArgv config)).out ≠ "" ∧
    TrimSpace (w.exec 10 nodeIPArgv).out ≠ "" ∧
    e = { URL := "http://" ++ TrimSpace (w.exec 10 nodeIPArgv).out ++ ":" ++
                   TrimSpace (w.exec 10 (nodePortArgv config)).out
          NodeIP := TrimSpace (w.exec 10 nodeIPArgv).out
          NodePort := TrimSpace (w.exec 10 (nodePortArgv config)).out } := by
  rw [discoverFromKubectl_val] at h
  cases h1 : (w.exec 10 (nodePortArgv config)).err with
  | some x => simp [h1] at h
  | none =>
    by_cases h2 : TrimSpace (w.exec 10 (nodePortArgv config)).out = ""
    · simp [h1, h2] at h
    · cases h3 : (w.exec 10 nodeIPArgv).err with
      | some x => simp [h1, h2, h3] at h
      | none =>
        by_cases h4 : TrimSpace (w.exec 10 nodeIPArgv).out = ""
        · simp [h1, h2, h3, h4] at h
        · simp only [h1, h2, h3, h4, if_false, Except.ok.injEq] at h
          exact ⟨rfl, rfl, h2, h4, h.symm⟩

/-! ## The resolver -/

theorem getInClusterEndpoint_val (w : World) :
    (getInClusterEndpoint w).val =
      .ok { URL := "http://" ++ setNonEmptyOr (w.env "PROMETHEUS_SERVICE")
                      "kube-prom-stack-kube-prome-prometheus" ++ "." ++
                    setNonEmptyOr (w.env "PROMETHEUS_NAMESPACE") "monitoring" ++
                    ".svc.cluster.local:9090"
            NodeIP := "", NodePort := "" } := by
  unfold getInClusterEndpoint getEnvOrDefault
  simp only [Eff.val_bind, Eff.val_pure, Getenv_eq_setNonEmptyOr]

theorem getInClusterEndpoint_execs (w : World) : execs (getInClusterEndpoint w).trace = [] := by
  unfold getInClusterEndpoint
  simp [execs]

theorem GetPrometheusEndpoint_val (w : World) :
    (GetPrometheusEndpoint w).val =
      if w.stat tokenPath = true then (getInClusterEndpoint w).val
      else if Getenv w "PROMETHEUS_URL" ≠ "" then
        .ok { URL := Getenv w "PROMETHEUS_URL", NodeIP := "", NodePort := "" }
      else (discoverFromKubectl w
        { Namespace := setNonEmptyOr (w.env "PROMETHEUS_NAMESPACE") "monitoring"
          ServiceName := setNonEmptyOr (w.env "PROMETHEUS_SERVICE")
            "kube-prom-stack-kube-prome-prometheus" }).val := by
  unfold GetPrometheusEndpoint getEnvOrDefault
  simp only [Getenv_eq_setNonEmptyOr]
  by_cases h1 : w.stat tokenPath = true
  · simp [h1]
  · by_cases h2 : Getenv w "PROMETHEUS_URL" = ""
    · simp [h1, h2]
    · simp [h1, h2]

theorem GetPrometheusEndpoint_execs (w : World) :
    execs (GetPrometheusEndpoint w).trace =
      if w.stat tokenPath = true then []
      else if Getenv w "PROMETHEUS_URL" ≠ "" then []
      else execs (discoverFromKubectl w
        { Namespace := setNonEmptyOr (w.env "PROMETHEUS_NAMESPACE") "monitoring"
          ServiceName := setNonEmptyOr (w.env "PROMETHEUS_SERVICE")
            "kube-prom-stack-kube-prome-prometheus" }).trace := by
  unfold GetPrometheusEndpoint getEnvOrDefault
  simp only [Getenv_eq_setNonEmptyOr]
  by_cases h1 : w.stat tokenPath = true
  · simp [h1, execs_append, getInClusterEndpoint_execs, execs]
  · by_cases h2 : Getenv w "PROMETHEUS_URL" = ""
    · simp [h1, h2, execs_append, execs]
    · simp [h1, h2, execs_append, execs]

theorem GetPrometheusEndpoint_ok_URL_ne_empty (w : World) (e : PrometheusEndpoint)
    (h : (GetPrometheusEndpoint w).val = .ok e) : e.URL ≠ "" := by
  rw [GetPrometheusEndpoint_val] at h
  by_cases h1 : w.stat tokenPath = true
  · simp only [h1, if_true, getInClusterEndpoint_val, Except.ok.injEq] at h
    rw [← h]
    simp only [String.append_assoc]
    exact http_append_ne_empty _
  · by_cases h2 : Getenv w "PROMETHEUS_URL" = ""
    · simp only [h1, h2, ne_eq, not_true_eq_false, if_false] at h
      obtain ⟨-, -, -, -, he⟩ := discoverFromKubectl_ok w _ e h
      rw [he]
      simp only [String.append_assoc]
      exact http_append_ne_empty _
    · simp [h1, h2] at h
      rw [← h]
      exact h2

/-! ## The health probe -/

theorem CheckPrometheusHealth_val (w : World) (url : String) :
    (CheckPrometheusHealth w url).val =
      match (w.exec 5 (curlArgv url)).err with
      | some err => some ("failed to connect to Prometheus: " ++ err)
      | none =>
        if TrimSpace (w.exec 5 (curlArgv url)).out ≠ "200" then
          some ("Prometheus returned status code: " ++ TrimSpace (w.exec 5 (curlArgv url)).out)
        else none := by
  unfold CheckPrometheusHealth curlArgv
  simp only [Eff.val_bind, Eff.val_Output]
  cases h1 : (w.exec 5 ["curl", "-s", "-o", "/dev/null", "-w", "%\x7bhttp_code\x7d",
      url ++ "/api/v1/query?query=up"]).err with
  | some e => simp
  | none =>
    by_cases h2 : TrimSpace (w.exec 5 ["curl", "-s", "-o", "/dev/null", "-w",
        "%\x7bhttp_code\x7d", url ++ "/api/v1/query?query=up"]).out = "200"
    · simp [h2]
    · simp [h2]

theorem CheckPrometheusHealth_execs (w : World) (url : String) :
    execs (CheckPrometheusHealth w url).trace = [(5, curlArgv url)] := by
  unfold CheckPrometheusHealth curlArgv
  simp only [Eff.trace_bind, Eff.val_Output, Eff.trace_Output]
  cases h1 : (w.exec 5 ["curl", "-s", "-o", "/dev/null", "-w", "%\x7bhttp_code\x7d",
      url ++ "/api/v1/query?query=up"]).err with
  | some e => simp [execs]
  | none =>
    by_cases h2 : TrimSpace (w.exec 5 ["curl", "-s", "-o", "/dev/null", "-w",
        "%\x7bhttp_code\x7d", url ++ "/api/v1/query?query=up"]).out = "200"
    · simp [h2, execs]
    · simp [h2, execs]

/-! ## Bootstrap -/

theorem Load_val (w : World) :
    (Load w).val =
      { Port := setNonEmptyOr (w.env "PORT") "8080"
        Environment := setNonEmptyOr (w.env "ENVIRONMENT") "development"
        PrometheusURL := (settled w (utils.GetPrometheusEndpoint w).val).1
        NodeIP := (settled w (utils.GetPrometheusEndpoint w).val).2.1
        NodePort := (settled w (utils.GetPrometheusEndpoint w).val).2.2 } := by
  unfold Load getEnv
  simp only [Getenv_eq_setNonEmptyOr, Eff.val_bind, Eff.val_pure]
  cases h : (utils.GetPrometheusEndpoint w).val with
  | error e =>
    simp only [settled, Eff.val_bind, Eff.val_pure, Eff.val_logLine]
    split <;> simp
  | ok e =>
    simp only [settled, Eff.val_bind, Eff.val_pure, Eff.val_logLine]
    split <;> by_cases hn : e.NodeIP = "" <;> simp [hn]

theorem Load_execs (w : World) :
    execs (Load w).trace =
      execs (utils.GetPrometheusEndpoint w).trace ++
        [(5, utils.curlArgv (settled w (utils.GetPrometheusEndpoint w).val).1)] := by
  unfold Load getEnv
  simp only [Getenv_eq_setNonEmptyOr, Eff.trace_bind, Eff.val_bind, Eff.val_pure]
  cases h : (utils.GetPrometheusEndpoint w).val with
  | error e =>
    simp only [settled, Eff.val_bind, Eff.val_pure, Eff.val_logLine, Eff.trace_bind,
      Eff.trace_pure, Eff.trace_logLine, execs_append, CheckPrometheusHealth_execs]
    split <;> simp [execs, execs_append]
  | ok e =>
    simp only [settled, Eff.val_bind, Eff.val_pure, Eff.val_logLine, Eff.trace_bind,
      Eff.trace_pure, Eff.trace_logLine, execs_append, CheckPrometheusHealth_execs]
    split <;> by_cases hn : e.NodeIP = "" <;> simp [hn, execs, execs_append]

/-! ## The query facade -/

section Facade

variable {Ctx V : Type}

theorem Query_val (p : PrometheusService Ctx V) (now : Int) (ctx : Ctx) (q : String) :
    (p.Query now ctx q).val =
      match (p.client.Query ctx q now).err with
      | some err => .error ("query error: " ++ err)
      | none => .ok (p.client.Query ctx q now).result := by
  unfold PrometheusService.Query
  simp only [Eff.val_bind]
  cases h : (p.client.Query ctx q now).err with
  | some e => simp
  | none => by_cases hw : (p.client.Query ctx q now).warnings.length > 0 <;> simp [hw]

theorem Query_apiQueries (p : PrometheusService Ctx V) (now : Int) (ctx : Ctx) (q : String) :
    apiQueries (p.Query now ctx q).trace = [(q, now)] ∧
    apiRangeQueries (p.Query now ctx q).trace = [] := by
  unfold PrometheusService.Query
  simp only [Eff.trace_bind]
  cases h : (p.client.Query ctx q now).err with
  | some e => simp [Eff.emit, Eff.trace, apiQueries, apiRangeQueries]
  | none =>
    by_cases hw : (p.client.Query ctx q now).warnings.length > 0 <;>
      simp [hw, Eff.emit, Eff.trace, apiQueries, apiRangeQueries, logLine, pure]

theorem QueryRange_val (p : PrometheusService Ctx V) (ctx : Ctx) (q : String)
    (start stop step : Int) :
    (p.QueryRange ctx q start stop step).val =
      match (p.client.QueryRange ctx q start stop step).err with
      | some err => .error ("query range error: " ++ err)
      | none => .ok (p.client.QueryRange ctx q start stop step).result := by
  unfold PrometheusService.QueryRange
  simp only [Eff.val_bind]
  cases h : (p.client.QueryRange ctx q start stop step).err with
  | some e => simp
  | none =>
    by_cases hw : (p.client.QueryRange ctx q start stop step).warnings.length > 0 <;> simp [hw]

theorem QueryRange_apiQueries (p : PrometheusService Ctx V) (ctx : Ctx) (q : String)
    (start stop step : Int) :
    apiRangeQueries (p.QueryRange ctx q start stop step).trace = [(q, start, stop, step)] ∧
    apiQueries (p.QueryRange ctx q start stop step).trace = [] := by
  unfold PrometheusService.QueryRange
  simp only [Eff.trace_bind]
  cases h : (p.client.QueryRange ctx q start stop step).err with
  | some e => simp [Eff.emit, Eff.trace, apiQueries, apiRangeQueries]
  | none =>
    by_cases hw : (p.client.QueryRange ctx q start stop step).warnings.length > 0 <;>
      simp [hw, Eff.emit, Eff.trace, apiQueries, apiRangeQueries, logLine, pure]

end Facade

/-! ## Claims -/

/-- Claim C1: for every environment, token-file state and outcome of the
kubectl and curl processes, `config.Load` returns a configuration (it is a
total function) whose `PrometheusURL` is not the empty string. -/
theorem Load_PrometheusURL_nonempty (w : World) :
    ∃ cfg : config.Config, (config.Load w).val = cfg ∧ cfg.PrometheusURL ≠ "" := by
  refine ⟨_, rfl, ?_⟩
  rw [Load_val]
  show (settled w (utils.GetPrometheusEndpoint w).val).1 ≠ ""
  cases h : (utils.GetPrometheusEndpoint w).val with
  | error msg => exact setNonEmptyOr_ne_empty _ _ (by decide)
  | ok e => exact GetPrometheusEndpoint_ok_URL_ne_empty w e h

/-- Claim C2: when the service-account token file exists,
`GetPrometheusEndpoint` succeeds with URL
`"http://" + service + "." + namespace + ".svc.cluster.local:9090"` and empty
`NodeIP` and `NodePort`, where namespace and service are the values of
`PROMETHEUS_NAMESPACE` and `PROMETHEUS_SERVICE` when set and non-empty and
the documented defaults otherwise; no subordinate process is started, the
whole run is the same in every world with the token file and the same
values of these two variables (whatever `PROMETHEUS_URL` and kubectl do),
and when both are unset the URL is the documented default one. -/
theorem GetPrometheusEndpoint_inCluster (w : World) (h : w.stat utils.tokenPath = true) :
    (utils.GetPrometheusEndpoint w).val =
      .ok { URL := "http://" ++ setNonEmptyOr (w.env "PROMETHEUS_SERVICE")
                      "kube-prom-stack-kube-prome-prometheus" ++ "." ++
                    setNonEmptyOr (w.env "PROMETHEUS_NAMESPACE") "monitoring" ++
                    ".svc.cluster.local:9090"
            NodeIP := "", NodePort := "" } ∧
    execs (utils.GetPrometheusEndpoint w).trace = [] ∧
    (∀ w2 : World, w2.stat utils.tokenPath = true →
      w2.env "PROMETHEUS_NAMESPACE" = w.env "PROMETHEUS_NAMESPACE" →
      w2.env "PROMETHEUS_SERVICE" = w.env "PROMETHEUS_SERVICE" →
      utils.GetPrometheusEndpoint w2 = utils.GetPrometheusEndpoint w) ∧
    (w.env "PROMETHEUS_NAMESPACE" = none → w.env "PROMETHEUS_SERVICE" = none →
      (utils.GetPrometheusEndpoint w).val =
        .ok { URL := "http://kube-prom-stack-kube-prome-prometheus.monitoring.svc.cluster.local:9090"
              NodeIP := "", NodePort := "" }) := by
  have hv := GetPrometheusEndpoint_val w
  simp only [h, if_true, getInClusterEndpoint_val] at hv
  refine ⟨hv, ?_, ?_, ?_⟩
  · rw [GetPrometheusEndpoint_execs]; simp [h]
  · intro w2 h2 hn hs
    unfold utils.GetPrometheusEndpoint utils.getInClusterEndpoint utils.getEnvOrDefault Getenv
    simp only [h, h2, hn, hs, if_true]
  · intro hn hs
    rw [hv, hn, hs]
    decide

/-- The theorem of claim C2 at a world inside the cluster in which the
override variable is set and kubectl fails. -/
theorem GetPrometheusEndpoint_inCluster_witness :
    worldInClusterOverride.stat utils.tokenPath = true ∧
    (utils.GetPrometheusEndpoint worldInClusterOverride).val =
      .ok { URL := "http://kube-prom-stack-kube-prome-prometheus.monitoring.svc.cluster.local:9090"
            NodeIP := "", NodePort := "" } :=
  ⟨by decide,
   (GetPrometheusEndpoint_inCluster worldInClusterOverride (by decide)).2.2.2
     (by decide) (by decide)⟩

/-- Claim C3 as stated fails: inside the cluster with `PROMETHEUS_URL` set
to a non-empty value, the resolver returns the in-cluster DNS URL, not the
value of the variable. -/
theorem GetPrometheusEndpoint_override_not_first :
    worldInClusterOverride.stat utils.tokenPath = true ∧
    worldInClusterOverride.env "PROMETHEUS_URL" = some "http://prom.example:9090" ∧
    urlOf (utils.GetPrometheusEndpoint worldInClusterOverride).val =
      some "http://kube-prom-stack-kube-prome-prometheus.monitoring.svc.cluster.local:9090" ∧
    urlOf (utils.GetPrometheusEndpoint worldInClusterOverride).val ≠
      some "http://prom.example:9090" := by
  decide

/-- Claim C3, amended: the chain is ordered in-cluster DNS convention first,
then explicit override, then kubectl discovery. For every environment in
which `PROMETHEUS_URL` is set and non-empty, the resolver returns the value
of `PROMETHEUS_URL` as URL when the token file is absent and the in-cluster
DNS URL when it is present, and in both cases kubectl is not run. -/
theorem GetPrometheusEndpoint_chain_order (w : World) (u : String)
    (hu : w.env "PROMETHEUS_URL" = some u) (hne : u ≠ "") :
    (w.stat utils.tokenPath = false →
      urlOf (utils.GetPrometheusEndpoint w).val = some u) ∧
    (w.stat utils.tokenPath = true →
      urlOf (utils.GetPrometheusEndpoint w).val =
        some ("http://" ++ setNonEmptyOr (w.env "PROMETHEUS_SERVICE")
                "kube-prom-stack-kube-prome-prometheus" ++ "." ++
              setNonEmptyOr (w.env "PROMETHEUS_NAMESPACE") "monitoring" ++
              ".svc.cluster.local:9090")) ∧
    execs (utils.GetPrometheusEndpoint w).trace = [] := by
  have hg : Getenv w "PROMETHEUS_URL" = u := by simp [Getenv, hu]
  refine ⟨?_, ?_, ?_⟩
  · intro ht
    rw [GetPrometheusEndpoint_val]
    simp [ht, hg, hne, urlOf]
  · intro ht
    rw [GetPrometheusEndpoint_val]
    simp [ht, getInClusterEndpoint_val, urlOf]
  · rw [GetPrometheusEndpoint_execs]
    simp [hg, hne]

/-- The theorem of amended claim C3 at a world inside the cluster with the
override variable set. -/
theorem GetPrometheusEndpoint_chain_order_witness :
    worldInClusterOverride.env "PROMETHEUS_URL" = some "http://prom.example:9090" ∧
    "http://prom.example:9090" ≠ "" ∧
    execs (utils.GetPrometheusEndpoint worldInClusterOverride).trace = [] :=
  ⟨by decide, by decide,
   (GetPrometheusEndpoint_chain_order worldInClusterOverride "http://prom.example:9090"
     (by decide) (by decide)).2.2⟩

/-- Claim C5: when the token file is absent and `PROMETHEUS_URL` is set and
non-empty, the resolver succeeds with exactly that string as URL (any
string at all, untouched) and empty `NodeIP` and `NodePort`; no subordinate
process is started and the whole run is the same for every behaviour of
the subordinate processes. -/
theorem GetPrometheusEndpoint_override_verbatim (w : World) (u : String)
    (ht : w.stat utils.tokenPath = false)
    (hu : w.env "PROMETHEUS_URL" = some u) (hne : u ≠ "") :
    (utils.GetPrometheusEndpoint w).val = .ok { URL := u, NodeIP := "", NodePort := "" } ∧
    execs (utils.GetPrometheusEndpoint w).trace = [] ∧
    ∀ ex : Nat → List String → CmdOutcome,
      utils.GetPrometheusEndpoint { w with exec := ex } = utils.GetPrometheusEndpoint w := by
  have hg : Getenv w "PROMETHEUS_URL" = u := by simp [Getenv, hu]
  refine ⟨?_, ?_, ?_⟩
  · rw [GetPrometheusEndpoint_val]
    simp [ht, hg, hne]
  · rw [GetPrometheusEndpoint_execs]
    simp [hg, hne]
  · intro ex
    have hg2 : Getenv { w with exec := ex } "PROMETHEUS_URL" = u := by simp [Getenv, hu]
    unfold utils.GetPrometheusEndpoint
    simp [ht, hg, hg2, hne]

/-- The theorem of claim C5 at a world outside the cluster whose override is
not a well-formed URL and has surrounding blanks. -/
theorem GetPrometheusEndpoint_override_verbatim_witness :
    worldOverride.stat utils.tokenPath = false ∧
    worldOverride.env "PROMETHEUS_URL" = some " not a url " ∧ " not a url " ≠ "" ∧
    (utils.GetPrometheusEndpoint worldOverride).val =
      .ok { URL := " not a url ", NodeIP := "", NodePort := "" } :=
  ⟨by decide, by decide, by decide,
   (GetPrometheusEndpoint_override_verbatim worldOverride " not a url "
     (by decide) (by decide) (by decide)).1⟩

/-- Claim C10: with the environment fixed, the resolver can fail only when
the token file is absent and `PROMETHEUS_URL` is unset or empty; hence
whenever `Load` takes its fallback branch the resulting `PrometheusURL` is
the hard default `"http://localhost:9090"` and `NodeIP` and `NodePort` are
empty. -/
theorem Load_fallback_is_hard_default (w : World) (msg : String)
    (h : (utils.GetPrometheusEndpoint w).val = .error msg) :
    w.stat utils.tokenPath = false ∧
    (w.env "PROMETHEUS_URL" = none ∨ w.env "PROMETHEUS_URL" = some "") ∧
    (config.Load w).val.PrometheusURL = "http://localhost:9090" ∧
    (config.Load w).val.NodeIP = "" ∧ (config.Load w).val.NodePort = "" := by
  have hv := GetPrometheusEndpoint_val w
  rw [h] at hv
  have ht : w.stat utils.tokenPath = false := by
    cases hs : w.stat utils.tokenPath with
    | false => rfl
    | true => simp [hs, getInClusterEndpoint_val] at hv
  have hg : Getenv w "PROMETHEUS_URL" = "" := by
    by_contra hg
    simp [ht, hg] at hv
  have he : w.env "PROMETHEUS_URL" = none ∨ w.env "PROMETHEUS_URL" = some "" := by
    unfold Getenv at hg
    cases hx : w.env "PROMETHEUS_URL" with
    | none => exact Or.inl rfl
    | some s => rw [hx] at hg; exact Or.inr (by simpa using hg)
  refine ⟨ht, he, ?_, ?_, ?_⟩
  · rw [Load_val, h]
    rcases he with he | he <;> simp [settled, setNonEmptyOr, he]
  · rw [Load_val, h]; rfl
  · rw [Load_val, h]; rfl

/-- The theorem of claim C10 at a world outside the cluster where kubectl
fails: the fallback branch is taken and yields the hard default. -/
theorem Load_fallback_is_hard_default_witness :
    (utils.GetPrometheusEndpoint worldAllFail).val =
      .error "failed to get NodePort: exit status 1" ∧
    (config.Load worldAllFail).val.PrometheusURL = "http://localhost:9090" :=
  ⟨by decide,
   (Load_fallback_is_hard_default worldAllFail "failed to get NodePort: exit status 1"
     (by decide)).2.2.1⟩

/-- Claim C4: `discoverFromKubectl` returns an error and no endpoint
whenever the nodePort command or the node-IP command fails or either
trimmed output is empty; whenever it succeeds `NodePort` and `NodeIP` are
the trimmed outputs, both non-empty, and `URL` is
`"http://" + NodeIP + ":" + NodePort`; it does succeed when neither failure
condition holds; each command is started at most once, and the second is
not started at all after the first has failed. -/
theorem discoverFromKubectl_fails_or_wellformed (w : World) (config : utils.DiscoveryConfig) :
    ((w.exec 10 (utils.nodePortArgv config)).err ≠ none ∨
      (w.exec 10 utils.nodeIPArgv).err ≠ none ∨
      TrimSpace (w.exec 10 (utils.nodePortArgv config)).out = "" ∨
      TrimSpace (w.exec 10 utils.nodeIPArgv).out = "" →
        ∃ msg, (utils.discoverFromKubectl w config).val = .error msg) ∧
    (∀ e, (utils.discoverFromKubectl w config).val = .ok e →
      e.NodePort = TrimSpace (w.exec 10 (utils.nodePortArgv config)).out ∧
      e.NodeIP = TrimSpace (w.exec 10 utils.nodeIPArgv).out ∧
      e.NodePort ≠ "" ∧ e.NodeIP ≠ "" ∧
      e.URL = "http://" ++ e.NodeIP ++ ":" ++ e.NodePort) ∧
    ((w.exec 10 (utils.nodePortArgv config)).err = none →
      (w.exec 10 utils.nodeIPArgv).err = none →
      TrimSpace (w.exec 10 (utils.nodePortArgv config)).out ≠ "" →
      TrimSpace (w.exec 10 utils.nodeIPArgv).out ≠ "" →
        ∃ e, (utils.discoverFromKubectl w config).val = .ok e) ∧
    (execs (utils.discoverFromKubectl w config).trace = [(10, utils.nodePortArgv config)] ∨
      execs (utils.discoverFromKubectl w config).trace =
        [(10, utils.nodePortArgv config), (10, utils.nodeIPArgv)]) ∧
    (execs (utils.discoverFromKubectl w config).trace).Nodup ∧
    ((w.exec 10 (utils.nodePortArgv config)).err ≠ none ∨
      TrimSpace (w.exec 10 (utils.nodePortArgv config)).out = "" →
        execs (utils.discoverFromKubectl w config).trace = [(10, utils.nodePortArgv config)]) := by
  have hdistinct : utils.nodePortArgv config ≠ utils.nodeIPArgv := by
    simp [utils.nodePortArgv, utils.nodeIPArgv]
  refine ⟨?_, ?_, ?_, ?_, ?_, ?_⟩
  · intro hfail
    cases hv : (utils.discoverFromKubectl w config).val with
    | error msg => exact ⟨msg, rfl⟩
    | ok e =>
      obtain ⟨h1, h2, h3, h4, -⟩ := discoverFromKubectl_ok w config e hv
      rcases hfail with h | h | h | h
      · exact absurd h1 h
      · exact absurd h2 h
      · exact absurd h h3
      · exact absurd h h4
  · intro e hv
    obtain ⟨-, -, h3, h4, he⟩ := discoverFromKubectl_ok w config e hv
    subst he
    exact ⟨rfl, rfl, h3, h4, rfl⟩
  · intro h1 h2 h3 h4
    rw [discoverFromKubectl_val]
    simp [h1, h2, h3, h4]
  · rw [discoverFromKubectl_execs]
    split
    · exact Or.inr rfl
    · exact Or.inl rfl
  · rw [discoverFromKubectl_execs]
    split
    · simp [hdistinct]
    · simp
  · intro hfail
    rw [discoverFromKubectl_execs]
    rcases hfail with h | h
    · simp [h]
    · simp [h]

/-- The theorem of claim C4 at a world where kubectl fails (an error is
returned) next to a run where both commands answer. -/
theorem discoverFromKubectl_fails_or_wellformed_witness :
    (utils.discoverFromKubectl worldKubectlOk ⟨"monitoring", "prom"⟩).val =
      .ok { URL := "http://10.0.0.5:30090", NodeIP := "10.0.0.5", NodePort := "30090" } ∧
    (worldAllFail.exec 10 (utils.nodePortArgv ⟨"monitoring", "prom"⟩)).err ≠ none ∧
    ∃ msg, (utils.discoverFromKubectl worldAllFail ⟨"monitoring", "prom"⟩).val = .error msg :=
  ⟨by decide, by decide,
   (discoverFromKubectl_fails_or_wellformed worldAllFail ⟨"monitoring", "prom"⟩).1
     (Or.inl (by decide))⟩

/-- Claim C8: `CheckPrometheusHealth url` runs the probe process exactly
once, on `url + "/api/v1/query?query=up"`, and returns the nil error if and
only if the process reports no error and its trimmed output is `"200"`; a
process error `e` gives `"failed to connect to Prometheus: " + e`, and any
other trimmed output `s` gives `"Prometheus returned status code: " + s`. -/
theorem CheckPrometheusHealth_ok_iff (w : World) (url : String) :
    ((utils.CheckPrometheusHealth w url).val = none ↔
      (w.exec 5 ["curl", "-s", "-o", "/dev/null", "-w", "%\x7bhttp_code\x7d",
          url ++ "/api/v1/query?query=up"]).err = none ∧
      TrimSpace (w.exec 5 ["curl", "-s", "-o", "/dev/null", "-w", "%\x7bhttp_code\x7d",
          url ++ "/api/v1/query?query=up"]).out = "200") ∧
    (∀ e, (w.exec 5 ["curl", "-s", "-o", "/dev/null", "-w", "%\x7bhttp_code\x7d",
          url ++ "/api/v1/query?query=up"]).err = some e →
      (utils.CheckPrometheusHealth w url).val =
        some ("failed to connect to Prometheus: " ++ e)) ∧
    ((w.exec 5 ["curl", "-s", "-o", "/dev/null", "-w", "%\x7bhttp_code\x7d",
          url ++ "/api/v1/query?query=up"]).err = none →
      TrimSpace (w.exec 5 ["curl", "-s", "-o", "/dev/null", "-w", "%\x7bhttp_code\x7d",
          url ++ "/api/v1/query?query=up"]).out ≠ "200" →
      (utils.CheckPrometheusHealth w url).val =
        some ("Prometheus returned status code: " ++
          TrimSpace (w.exec 5 ["curl", "-s", "-o", "/dev/null", "-w", "%\x7bhttp_code\x7d",
            url ++ "/api/v1/query?query=up"]).out)) ∧
    execs (utils.CheckPrometheusHealth w url).trace =
      [(5, ["curl", "-s", "-o", "/dev/null", "-w", "%\x7bhttp_code\x7d",
            url ++ "/api/v1/query?query=up"])] := by
  have hv := CheckPrometheusHealth_val w url
  have hx := CheckPrometheusHealth_execs w url
  simp only [utils.curlArgv] at hv hx
  refine ⟨?_, ?_, ?_, hx⟩
  · rw [hv]
    cases h1 : (w.exec 5 ["curl", "-s", "-o", "/dev/null", "-w", "%\x7bhttp_code\x7d",
        url ++ "/api/v1/query?query=up"]).err with
    | some e => simp
    | none => simp
  · intro e he
    rw [hv, he]
  · intro h1 h2
    rw [hv, h1]
    simp [h2]

/-- The theorem of claim C8 at a world whose probe prints 200: the check
succeeds. -/
theorem CheckPrometheusHealth_ok_iff_witness :
    (utils.CheckPrometheusHealth worldKubectlOk "http://10.0.0.5:30090").val = none :=
  (CheckPrometheusHealth_ok_iff worldKubectlOk "http://10.0.0.5:30090").1.mpr
    ⟨by decide, by decide⟩

/-- Claim C9: `config.Load` returns the reference configuration `LoadRef`
for every world; the health probe is run once, after the resolver, on the
settled URL; and two worlds that differ only in the outcome of curl
processes give equal configurations. -/
theorem Load_eq_reference (w : World) :
    (config.Load w).val = LoadRef w ∧
    execs (config.Load w).trace =
      execs (utils.GetPrometheusEndpoint w).trace ++
        [(5, ["curl", "-s", "-o", "/dev/null", "-w", "%\x7bhttp_code\x7d",
              (config.Load w).val.PrometheusURL ++ "/api/v1/query?query=up"])] ∧
    ∀ w2 : World, w2.env = w.env → w2.stat = w.stat →
      (∀ t argv, argv.head? ≠ some "curl" → w2.exec t argv = w.exec t argv) →
      (config.Load w2).val = (config.Load w).val := by
  refine ⟨?_, ?_, ?_⟩
  · rw [Load_val]
    unfold LoadRef
    cases (utils.GetPrometheusEndpoint w).val <;> rfl
  · rw [Load_execs, Load_val]
    rfl
  · intro w2 henv hstat hexec
    have hg : ∀ k, Getenv w2 k = Getenv w k := by intro k; simp [Getenv, henv]
    have hp : ∀ c, w2.exec 10 (utils.nodePortArgv c) = w.exec 10 (utils.nodePortArgv c) :=
      fun c => hexec _ _ (by simp [utils.nodePortArgv])
    have hi : w2.exec 10 utils.nodeIPArgv = w.exec 10 utils.nodeIPArgv :=
      hexec _ _ (by simp [utils.nodeIPArgv])
    have hr : (utils.GetPrometheusEndpoint w2).val = (utils.GetPrometheusEndpoint w).val := by
      rw [GetPrometheusEndpoint_val, GetPrometheusEndpoint_val, getInClusterEndpoint_val,
        getInClusterEndpoint_val, discoverFromKubectl_val, discoverFromKubectl_val]
      simp only [hg, hp, hi, henv, hstat]
    rw [Load_val, Load_val, hr, henv]
    cases (utils.GetPrometheusEndpoint w).val <;> simp [settled, henv]

/-- The theorem of claim C9 at two worlds that differ only in the probe:
one answers 200, the other times out. -/
theorem Load_eq_reference_witness :
    (config.Load worldProbeDown).val = (config.Load worldKubectlOk).val ∧
    (config.Load worldKubectlOk).val =
      { PrometheusURL := "http://10.0.0.5:30090", Port := "8080", Environment := "development"
        NodeIP := "10.0.0.5", NodePort := "30090" } :=
  ⟨(Load_eq_reference worldKubectlOk).2.2 worldProbeDown rfl rfl
      (fun t argv h => by simp [worldProbeDown, h]),
   by decide⟩

/-- Claim C6: for every response of the client, `Query` fails if and only
if the response carries an error `m`, and then returns the error
`"query error: " + m`; otherwise it returns the response's value unchanged,
whatever the warnings. `QueryRange` does the same with
`"query range error: "`. Each sends exactly one request, carrying the
expression (and start, end and step) it was given. -/
theorem Query_fails_iff_backend_error {Ctx V : Type} (p : services.PrometheusService Ctx V)
    (now : Int) (ctx : Ctx) (q : String) (start stop step : Int) :
    (((∃ m, (p.Query now ctx q).val = .error m) ↔ (p.client.Query ctx q now).err ≠ none) ∧
      (∀ m, (p.client.Query ctx q now).err = some m →
        (p.Query now ctx q).val = .error ("query error: " ++ m)) ∧
      ((p.client.Query ctx q now).err = none →
        (p.Query now ctx q).val = .ok (p.client.Query ctx q now).result) ∧
      apiQueries (p.Query now ctx q).trace = [(q, now)] ∧
      apiRangeQueries (p.Query now ctx q).trace = []) ∧
    (((∃ m, (p.QueryRange ctx q start stop step).val = .error m) ↔
        (p.client.QueryRange ctx q start stop step).err ≠ none) ∧
      (∀ m, (p.client.QueryRange ctx q start stop step).err = some m →
        (p.QueryRange ctx q start stop step).val = .error ("query range error: " ++ m)) ∧
      ((p.client.QueryRange ctx q start stop step).err = none →
        (p.QueryRange ctx q start stop step).val =
          .ok (p.client.QueryRange ctx q start stop step).result) ∧
      apiRangeQueries (p.QueryRange ctx q start stop step).trace = [(q, start, stop, step)] ∧
      apiQueries (p.QueryRange ctx q start stop step).trace = []) := by
  refine ⟨⟨?_, ?_, ?_, (Query_apiQueries p now ctx q).1, (Query_apiQueries p now ctx q).2⟩,
    ⟨?_, ?_, ?_, (QueryRange_apiQueries p ctx q start stop step).1,
      (QueryRange_apiQueries p ctx q start stop step).2⟩⟩
  · rw [Query_val]
    cases (p.client.Query ctx q now).err <;> simp
  · intro m hm
    rw [Query_val, hm]
  · intro hm
    rw [Query_val, hm]
  · rw [QueryRange_val]
    cases (p.client.QueryRange ctx q start stop step).err <;> simp
  · intro m hm
    rw [QueryRange_val, hm]
  · intro hm
    rw [QueryRange_val, hm]

/-- The theorem of claim C6 at a client that answers an instant query with
a value and a warning, and a range query with an error. -/
theorem Query_fails_iff_backend_error_witness :
    (clientWarns.Query 1700000000 () "up").val = .ok 7 ∧
    (clientWarns.QueryRange () "up" 0 60 15).val =
      .error "query range error: bad_data: invalid step" :=
  ⟨(Query_fails_iff_backend_error clientWarns 1700000000 () "up" 0 60 15).1.2.2.1 rfl,
   (Query_fails_iff_backend_error clientWarns 1700000000 () "up" 0 60 15).2.2.1
     "bad_data: invalid step" rfl⟩

/-- Claim C7: each of the eight predefined operations is `Query` on its own
fixed expression, sends exactly one instant query, carrying that expression,
and no range query; the eight expressions are pairwise distinct. -/
theorem predefined_queries_fixed {Ctx V : Type} (p : services.PrometheusService Ctx V)
    (now : Int) (ctx : Ctx) :
    (p.GetCPUMetrics now ctx = p.Query now ctx
        "100 - (avg by(instance) (irate(node_cpu_seconds_total\x7bmode=\"idle\"\x7d[5m])) * 100)" ∧
      apiQueries (p.GetCPUMetrics now ctx).trace =
        [("100 - (avg by(instance) (irate(node_cpu_seconds_total\x7bmode=\"idle\"\x7d[5m])) * 100)", now)] ∧
      apiRangeQueries (p.GetCPUMetrics now ctx).trace = []) ∧
    (p.GetMemoryMetrics now ctx = p.Query now ctx
        "(1 - (node_memory_MemAvailable_bytes / node_memory_MemTotal_bytes)) * 100" ∧
      apiQueries (p.GetMemoryMetrics now ctx).trace =
        [("(1 - (node_memory_MemAvailable_bytes / node_memory_MemTotal_bytes)) * 100", now)] ∧
      apiRangeQueries (p.GetMemoryMetrics now ctx).trace = []) ∧
    (p.GetDiskMetrics now ctx = p.Query now ctx
        "(1 - (node_filesystem_avail_bytes\x7bfstype!~\"tmpfs|fuse.lxcfs|squashfs|vfat\"\x7d / node_filesystem_size_bytes\x7bfstype!~\"tmpfs|fuse.lxcfs|squashfs|vfat\"\x7d)) * 100" ∧
      apiQueries (p.GetDiskMetrics now ctx).trace =
        [("(1 - (node_filesystem_avail_bytes\x7bfstype!~\"tmpfs|fuse.lxcfs|squashfs|vfat\"\x7d / node_filesystem_size_bytes\x7bfstype!~\"tmpfs|fuse.lxcfs|squashfs|vfat\"\x7d)) * 100", now)] ∧
      apiRangeQueries (p.GetDiskMetrics now ctx).trace = []) ∧
    (p.GetPodMetrics now ctx = p.Query now ctx "kube_pod_info" ∧
      apiQueries (p.GetPodMetrics now ctx).trace = [("kube_pod_info", now)] ∧
      apiRangeQueries (p.GetPodMetrics now ctx).trace = []) ∧
    (p.GetNodeMetrics now ctx = p.Query now ctx "kube_node_info" ∧
      apiQueries (p.GetNodeMetrics now ctx).trace = [("kube_node_info", now)] ∧
      apiRangeQueries (p.GetNodeMetrics now ctx).trace = []) ∧
    (p.GetContainerCPU now ctx = p.Query now ctx
        "sum(rate(container_cpu_usage_seconds_total\x7bcontainer!=\"\"\x7d[5m])) by (pod, namespace)" ∧
      apiQueries (p.GetContainerCPU now ctx).trace =
        [("sum(rate(container_cpu_usage_seconds_total\x7bcontainer!=\"\"\x7d[5m])) by (pod, namespace)", now)] ∧
      apiRangeQueries (p.GetContainerCPU now ctx).trace = []) ∧
    (p.GetContainerMemory now ctx = p.Query now ctx
        "sum(container_memory_working_set_bytes\x7bcontainer!=\"\"\x7d) by (pod, namespace)" ∧
      apiQueries (p.GetContainerMemory now ctx).trace =
        [("sum(container_memory_working_set_bytes\x7bcontainer!=\"\"\x7d) by (pod, namespace)", now)] ∧
      apiRangeQueries (p.GetContainerMemory now ctx).trace = []) ∧
    (p.GetAllTargets now ctx = p.Query now ctx "up" ∧
      apiQueries (p.GetAllTargets now ctx).trace = [("up", now)] ∧
      apiRangeQueries (p.GetAllTargets now ctx).trace = []) ∧
    List.Pairwise (fun a b : String => a ≠ b)
      ["100 - (avg by(instance) (irate(node_cpu_seconds_total\x7bmode=\"idle\"\x7d[5m])) * 100)",
       "(1 - (node_memory_MemAvailable_bytes / node_memory_MemTotal_bytes)) * 100",
       "(1 - (node_filesystem_avail_bytes\x7bfstype!~\"tmpfs|fuse.lxcfs|squashfs|vfat\"\x7d / node_filesystem_size_bytes\x7bfstype!~\"tmpfs|fuse.lxcfs|squashfs|vfat\"\x7d)) * 100",
       "kube_pod_info",
       "kube_node_info",
       "sum(rate(container_cpu_usage_seconds_total\x7bcontainer!=\"\"\x7d[5m])) by (pod, namespace)",
       "sum(container_memory_working_set_bytes\x7bcontainer!=\"\"\x7d) by (pod, namespace)",
       "up"] := by
  refine ⟨⟨rfl, ?_⟩, ⟨rfl, ?_⟩, ⟨rfl, ?_⟩, ⟨rfl, ?_⟩, ⟨rfl, ?_⟩, ⟨rfl, ?_⟩, ⟨rfl, ?_⟩, ⟨rfl, ?_⟩,
    by decide⟩
  · exact Query_apiQueries p now ctx _
  · exact Query_apiQueries p now ctx _
  · exact Query_apiQueries p now ctx _
  · exact Query_apiQueries p now ctx _
  · exact Query_apiQueries p now ctx _
  · exact Query_apiQueries p now ctx _
  · exact Query_apiQueries p now ctx _
  · exact Query_apiQueries p now ctx _

end Monitoring
